import Mathlib

/-!
Shallow embedding of the `bevy-persistent` crate (src/error.rs, src/format.rs,
src/storage.rs, src/builder.rs, src/persistent.rs).

Modelling conventions:
- Machine bytes are `Nat`s in a `List Nat`.
- The external storage medium (a file on disk, or a browser key-value slot) is
  explicit state: a `Medium` record holding the optional byte contents plus
  fault-injection fields that make the fallible `std::fs` operations
  deterministic functions of the state.
- Rust `Result` is `Except`, Rust panics are a separate `OpStatus.panicked`
  outcome, and `&mut self` methods thread the `Persistent` record and the
  `Medium` explicitly.
- The per-format serde libraries (bincode, serde_json, toml, ...) are external
  crates, not code of this repository; they are abstracted as a `SerdeLibs`
  record of encode/decode functions, exactly the interface `format.rs` calls.
  UTF-8 strings are modelled as lists of Unicode scalar values, so
  `String::into_bytes` is the identity and UTF-8 validation
  (`std::str::from_utf8`) is a scalar-validity check.
- Logging calls are side effects with no bearing on state or results; they are
  omitted.
-/

/-- Errors of `src/error.rs` (`PersistenceError`). Each variant of the Rust
enum carries an error value of an external library; those payloads are
abstracted as `Nat` codes. The browser-only variant is omitted (the embedding
targets the non-wasm configuration, like the crate on a desktop target). -/
inductive PersistenceError where
  | Filesystem (error : Nat)
  | Encoding (error : Nat)
  | BincodeDeserialization (error : Nat)
  | BincodeSerialization (error : Nat)
  | IniDeserialization (error : Nat)
  | IniSerialization (error : Nat)
  | JsonDeserialization (error : Nat)
  | JsonSerialization (error : Nat)
  | RonDeserialization (error : Nat)
  | RonSerialization (error : Nat)
  | TomlDeserialization (error : Nat)
  | TomlSerialization (error : Nat)
  | YamlDeserialization (error : Nat)
  | YamlSerialization (error : Nat)
deriving DecidableEq, Repr

/-- `PersistenceError::is_serde` (src/error.rs lines 81-92): everything except
the transport (filesystem / browser) variant is a serde error. -/
def PersistenceError.is_serde : PersistenceError → Bool
  | PersistenceError.Filesystem _ => false
  | _ => true

/-- The storage formats of `src/format.rs` (`StorageFormat`), all features
enabled. -/
inductive StorageFormat where
  | Bincode
  | Ini
  | Json
  | JsonPretty
  | Ron
  | RonPretty
  | Toml
  | TomlPretty
  | Yaml
deriving DecidableEq, Repr

/-- Which serialization-error variant `StorageFormat::serialize` wraps a
library failure in, per format (src/format.rs lines 43-123). -/
def StorageFormat.serErr : StorageFormat → Nat → PersistenceError
  | StorageFormat.Bincode, e => PersistenceError.BincodeSerialization e
  | StorageFormat.Ini, e => PersistenceError.IniSerialization e
  | StorageFormat.Json, e => PersistenceError.JsonSerialization e
  | StorageFormat.JsonPretty, e => PersistenceError.JsonSerialization e
  | StorageFormat.Ron, e => PersistenceError.RonSerialization e
  | StorageFormat.RonPretty, e => PersistenceError.RonSerialization e
  | StorageFormat.Toml, e => PersistenceError.TomlSerialization e
  | StorageFormat.TomlPretty, e => PersistenceError.TomlSerialization e
  | StorageFormat.Yaml, e => PersistenceError.YamlSerialization e

/-- Which deserialization-error variant `StorageFormat::deserialize` wraps a
library failure in, per format (src/format.rs lines 148-207). -/
def StorageFormat.deErr : StorageFormat → Nat → PersistenceError
  | StorageFormat.Bincode, e => PersistenceError.BincodeDeserialization e
  | StorageFormat.Ini, e => PersistenceError.IniDeserialization e
  | StorageFormat.Json, e => PersistenceError.JsonDeserialization e
  | StorageFormat.JsonPretty, e => PersistenceError.JsonDeserialization e
  | StorageFormat.Ron, e => PersistenceError.RonDeserialization e
  | StorageFormat.RonPretty, e => PersistenceError.RonDeserialization e
  | StorageFormat.Toml, e => PersistenceError.TomlDeserialization e
  | StorageFormat.TomlPretty, e => PersistenceError.TomlDeserialization e
  | StorageFormat.Yaml, e => PersistenceError.YamlDeserialization e

/-- Modelled from the spec: the external per-format serde libraries (bincode,
serde_ini, serde_json, ron, toml, serde_yaml) that `src/format.rs` dispatches
to are not part of this repository. They are abstracted as one
encode/decode pair per format: for `Bincode` the payload is raw bytes, for the
text formats it is the scalar values of the produced `String`. -/
structure SerdeLibs (R : Type) where
  ser : StorageFormat → R → Except Nat (List Nat)
  de : StorageFormat → List Nat → Except Nat R

/-- A Unicode scalar value: below the surrogate range or between it and the
maximum code point. Models what a Rust `String` may contain. -/
def validScalar (c : Nat) : Bool :=
  c < 0xD800 || (0xE000 ≤ c && c < 0x110000)

/-- Modelled from the spec: `std::str::from_utf8` as used by
`StorageFormat::deserialize` (src/format.rs lines 141-146). With strings
modelled as scalar-value lists, UTF-8 decoding is a validity check. -/
def utf8Decode (bytes : List Nat) : Except Nat (List Nat) :=
  if bytes.all validScalar then Except.ok bytes else Except.error 0

/-- `StorageFormat::serialize` (src/format.rs lines 38-124): call the
format's library encoder and wrap its error into the matching
`PersistenceError` variant. (`String::into_bytes` on the text formats is the
identity under the scalar-value modelling of strings.) -/
def StorageFormat.serialize {R : Type} (L : SerdeLibs R) (fmt : StorageFormat)
    (resource : R) : Except PersistenceError (List Nat) :=
  match L.ser fmt resource with
  | Except.ok bytes => Except.ok bytes
  | Except.error e => Except.error (StorageFormat.serErr fmt e)

/-- `StorageFormat::deserialize` (src/format.rs lines 127-208): `Bincode`
parses the raw bytes directly; every text format first validates UTF-8
(failure becomes `PersistenceError::Encoding`) and then calls the format's
library parser, wrapping its error into the matching variant. -/
def StorageFormat.deserialize {R : Type} (L : SerdeLibs R) (fmt : StorageFormat)
    (serialized_resource : List Nat) : Except PersistenceError R :=
  if fmt = StorageFormat.Bincode then
    match L.de fmt serialized_resource with
    | Except.ok resource => Except.ok resource
    | Except.error e => Except.error (PersistenceError.BincodeDeserialization e)
  else
    match utf8Decode serialized_resource with
    | Except.error e => Except.error (PersistenceError.Encoding e)
    | Except.ok str =>
      match L.de fmt str with
      | Except.ok resource => Except.ok resource
      | Except.error e => Except.error (StorageFormat.deErr fmt e)

/-- The external world seen by `Storage` (src/storage.rs, filesystem variant):
the optional byte contents at the storage path, plus fault-injection fields
that determine whether each `std::fs` call fails (with which I/O error code).
`none` contents means the path does not exist. -/
structure Medium where
  contents : Option (List Nat)
  initErr : Option Nat
  readErr : Option Nat
  writeErr : Option Nat
deriving DecidableEq, Repr

/-- `Storage::occupied` (src/storage.rs lines 35-56): the path exists. -/
def Storage.occupied (m : Medium) : Bool :=
  m.contents.isSome

/-- `Storage::initialize` (src/storage.rs lines 18-32): create the parent
directory; fails only with a filesystem error. It does not touch the
contents at the path itself. -/
def Storage.initStorage (m : Medium) : Except PersistenceError Medium :=
  match m.initErr with
  | some e => Except.error (PersistenceError.Filesystem e)
  | none => Except.ok m

/-- `std::fs::read` as called by `Storage::read`: fails with an I/O error when
the fault is injected or the path does not exist; otherwise yields the bytes. -/
def Storage.rawRead (m : Medium) : Except PersistenceError (List Nat) :=
  match m.readErr with
  | some e => Except.error (PersistenceError.Filesystem e)
  | none =>
    match m.contents with
    | some bytes => Except.ok bytes
    | none => Except.error (PersistenceError.Filesystem 0)

/-- The open/truncate/write-all sequence of `Storage::write` (src/storage.rs
lines 148-159): on an I/O failure the previous contents are kept (the spec's
storage-backend contract, section 4.2, requires that no partial write is
externally observable); on success the contents are replaced. -/
def Storage.rawWrite (m : Medium) (bytes : List Nat) : Except PersistenceError Medium :=
  match m.writeErr with
  | some e => Except.error (PersistenceError.Filesystem e)
  | none => Except.ok { m with contents := some bytes }

/-- `Storage::read` (src/storage.rs lines 59-73, filesystem variant): read the
bytes, then deserialize them with the configured format. -/
def Storage.read {R : Type} (L : SerdeLibs R) (fmt : StorageFormat) (m : Medium) :
    Except PersistenceError R :=
  match Storage.rawRead m with
  | Except.error e => Except.error e
  | Except.ok bytes => StorageFormat.deserialize L fmt bytes

/-- `Storage::write` (src/storage.rs lines 140-160, filesystem variant):
serialize first — a serde failure returns before any file is opened, leaving
the medium untouched — then write the bytes. -/
def Storage.write {R : Type} (L : SerdeLibs R) (fmt : StorageFormat) (resource : R)
    (m : Medium) : Except PersistenceError Medium :=
  match StorageFormat.serialize L fmt resource with
  | Except.error e => Except.error e
  | Except.ok bytes => Storage.rawWrite m bytes

/-- The persistent resource of `src/persistent.rs` (`Persistent<R>`). The
Rust struct's `storage: Storage` field is only the location handle; the state
behind it is the explicitly threaded `Medium`, so the field is not repeated
here. `default: Option<Box<R>>` loses the box (a heap indirection with no
observable semantics). -/
structure Persistent (R : Type) where
  name : String
  format : StorageFormat
  resource : Option R
  default : Option R
  revert_to_default_on_deserialization_errors : Bool
deriving DecidableEq, Repr

/-- Outcome of a fallible `Persistent` method: normal return, a
`PersistenceError`, or a Rust panic with its message. -/
inductive OpStatus where
  | ok
  | err (error : PersistenceError)
  | panicked (message : String)
deriving DecidableEq, Repr

def OpStatus.isPanicked : OpStatus → Bool
  | OpStatus.panicked _ => true
  | _ => false

/-- Result of `Persistent::new` / `PersistentBuilder::build`: a constructed
resource, an error, or a panic. -/
inductive NewResult (R : Type) where
  | ok (value : Persistent R)
  | err (error : PersistenceError)
  | panicked (message : String)
deriving DecidableEq, Repr

def NewResult.isPanicked {R : Type} : NewResult R → Bool
  | NewResult.panicked _ => true
  | _ => false

def NewResult.isOk {R : Type} : NewResult R → Bool
  | NewResult.ok _ => true
  | _ => false

/-- `Persistent::is_revertible` (src/persistent.rs lines 210-212). -/
def Persistent.is_revertible {R : Type} (p : Persistent R) : Bool :=
  p.default.isSome

/-- `Persistent::is_loaded` (src/persistent.rs lines 215-217). -/
def Persistent.is_loaded {R : Type} (p : Persistent R) : Bool :=
  p.resource.isSome

/-- `Persistent::is_unloaded` (src/persistent.rs lines 220-222). -/
def Persistent.is_unloaded {R : Type} (p : Persistent R) : Bool :=
  p.resource.isNone

/-- Result of `Persistent::get` / `get_mut`: a value or a panic. -/
inductive GetResult (R : Type) where
  | ok (value : R)
  | panicked (message : String)
deriving DecidableEq, Repr

/-- `Persistent::get` (src/persistent.rs lines 229-235): panics when
unloaded. -/
def Persistent.get {R : Type} (p : Persistent R) : GetResult R :=
  match p.resource with
  | some resource => GetResult.ok resource
  | none => GetResult.panicked ("tried to get unloaded " ++ p.name)

/-- `Persistent::get_mut` (src/persistent.rs lines 242-248): panics when
unloaded. -/
def Persistent.get_mut {R : Type} (p : Persistent R) : GetResult R :=
  match p.resource with
  | some resource => GetResult.ok resource
  | none => GetResult.panicked ("tried to get unloaded " ++ p.name ++ " mutably")

/-- `Persistent::try_get` (src/persistent.rs lines 251-253). -/
def Persistent.try_get {R : Type} (p : Persistent R) : Option R :=
  p.resource

/-- `Persistent::persist` (src/persistent.rs lines 439-467): write the loaded
resource to storage; panics when unloaded. Returns the status and the medium
after the call. -/
def Persistent.persist {R : Type} (L : SerdeLibs R) (p : Persistent R) (m : Medium) :
    OpStatus × Medium :=
  match p.resource with
  | none => (OpStatus.panicked ("tried to save unloaded " ++ p.name), m)
  | some resource =>
    match Storage.write L p.format resource m with
    | Except.error e => (OpStatus.err e, m)
    | Except.ok mNew => (OpStatus.ok, mNew)

/-- `Persistent::set` (src/persistent.rs lines 265-268): replace the resource
unconditionally, then persist. -/
def Persistent.set {R : Type} (L : SerdeLibs R) (p : Persistent R) (new_resource : R)
    (m : Medium) : OpStatus × Persistent R × Medium :=
  let pNew : Persistent R := { p with resource := some new_resource }
  match Persistent.persist L pNew m with
  | (status, mNew) => (status, pNew, mNew)

/-- `Persistent::update` (src/persistent.rs lines 277-284): apply the updater
to the loaded resource then persist; panics when unloaded. -/
def Persistent.update {R : Type} (L : SerdeLibs R) (p : Persistent R) (updater : R → R)
    (m : Medium) : OpStatus × Persistent R × Medium :=
  match p.resource with
  | none => (OpStatus.panicked ("tried to update unloaded " ++ p.name), p, m)
  | some resource =>
    let pNew : Persistent R := { p with resource := some (updater resource) }
    match Persistent.persist L pNew m with
    | (status, mNew) => (status, pNew, mNew)

/-- `Persistent::unload` (src/persistent.rs lines 293-306): when loaded,
persist first and only on success drop the resource; a persist failure keeps
the resource loaded. A no-op when already unloaded. -/
def Persistent.unload {R : Type} (L : SerdeLibs R) (p : Persistent R) (m : Medium) :
    OpStatus × Persistent R × Medium :=
  if p.resource.isSome then
    match Persistent.persist L p m with
    | (OpStatus.ok, mNew) => (OpStatus.ok, { p with resource := none }, mNew)
    | (OpStatus.err e, mNew) => (OpStatus.err e, p, mNew)
    | (OpStatus.panicked msg, mNew) => (OpStatus.panicked msg, p, mNew)
  else
    (OpStatus.ok, p, m)

/-- `Persistent::unload_without_persisting` (src/persistent.rs lines
311-316). -/
def Persistent.unload_without_persisting {R : Type} (p : Persistent R) : Persistent R :=
  { p with resource := none }

/-- `Persistent::revert_to_default_in_memory` (src/persistent.rs lines
402-430): panics when non-revertible; otherwise reconstruct an independent
copy of the default by a serialize-then-deserialize round trip and store it as
the resource. On failure of either step the resource is unchanged. -/
def Persistent.revert_to_default_in_memory {R : Type} (L : SerdeLibs R)
    (p : Persistent R) : OpStatus × Persistent R :=
  match p.default with
  | none => (OpStatus.panicked ("tried to revert non-revertible " ++ p.name), p)
  | some d =>
    match StorageFormat.serialize L p.format d with
    | Except.error e => (OpStatus.err e, p)
    | Except.ok serialized =>
      match StorageFormat.deserialize L p.format serialized with
      | Except.error e => (OpStatus.err e, p)
      | Except.ok reconstructed => (OpStatus.ok, { p with resource := some reconstructed })

/-- `Persistent::revert_to_default` (src/persistent.rs lines 361-395): panics
when non-revertible; writes the default to storage, and if that succeeds and
the resource is loaded, also reverts it in memory. An in-memory failure still
leaves the storage write in place. -/
def Persistent.revert_to_default {R : Type} (L : SerdeLibs R) (p : Persistent R)
    (m : Medium) : OpStatus × Persistent R × Medium :=
  match p.default with
  | none => (OpStatus.panicked ("tried to revert non-revertible " ++ p.name), p, m)
  | some d =>
    match Storage.write L p.format d m with
    | Except.error e => (OpStatus.err e, p, m)
    | Except.ok mNew =>
      if p.resource.isSome then
        match Persistent.revert_to_default_in_memory L p with
        | (status, pNew) => (status, pNew, mNew)
      else
        (OpStatus.ok, p, mNew)

/-- `Persistent::reload` (src/persistent.rs lines 321-352): read and decode
storage into the resource; on a serde failure with the revert policy enabled,
attempt `revert_to_default`, returning the original decode error when the
revert fails; any other failure is returned with the resource untouched. -/
def Persistent.reload {R : Type} (L : SerdeLibs R) (p : Persistent R) (m : Medium) :
    OpStatus × Persistent R × Medium :=
  match Storage.read L p.format m with
  | Except.ok resource => (OpStatus.ok, { p with resource := some resource }, m)
  | Except.error error =>
    if error.is_serde then
      if p.revert_to_default_on_deserialization_errors then
        match Persistent.revert_to_default L p m with
        | (OpStatus.ok, pNew, mNew) => (OpStatus.ok, pNew, mNew)
        | (OpStatus.err _, pNew, mNew) => (OpStatus.err error, pNew, mNew)
        | (OpStatus.panicked msg, pNew, mNew) => (OpStatus.panicked msg, pNew, mNew)
      else
        (OpStatus.err error, p, m)
    else
      (OpStatus.err error, p, m)

/-- `Persistent::new` (src/persistent.rs lines 43-190). Panics when the
revert-on-deserialization-errors policy is requested without revertibility.
First run (storage unoccupied): initialize the location, write the default,
and when `loaded` materialize an independent serialize-then-deserialize copy
of the default. Existing storage, unloaded mode: skip reading. Existing
storage, loaded mode: read and decode; on a serde failure with the policy
enabled, build the value unloaded, revert storage to the default, then revert
in memory — either revert step failing returns the original decode error. -/
def Persistent.new {R : Type} (L : SerdeLibs R) (name : String) (fmt : StorageFormat)
    (loaded : Bool) (default : R) (revertible : Bool)
    (revert_to_default_on_deserialization_errors : Bool) (m : Medium) :
    NewResult R × Medium :=
  if revert_to_default_on_deserialization_errors && !revertible then
    (NewResult.panicked
      ("revert to default on deserialization errors " ++
        "is set for a non-revertible persistent resource"), m)
  else if !(Storage.occupied m) then
    match Storage.initStorage m with
    | Except.error e => (NewResult.err e, m)
    | Except.ok mInit =>
      match Storage.write L fmt default mInit with
      | Except.error e => (NewResult.err e, mInit)
      | Except.ok mWritten =>
        if loaded then
          match StorageFormat.serialize L fmt default with
          | Except.error e => (NewResult.err e, mWritten)
          | Except.ok serialized =>
            match StorageFormat.deserialize L fmt serialized with
            | Except.error e => (NewResult.err e, mWritten)
            | Except.ok reconstructed =>
              (NewResult.ok
                { name := name, format := fmt, resource := some reconstructed,
                  default := if revertible then some default else none,
                  revert_to_default_on_deserialization_errors :=
                    revert_to_default_on_deserialization_errors }, mWritten)
        else
          (NewResult.ok
            { name := name, format := fmt, resource := none,
              default := if revertible then some default else none,
              revert_to_default_on_deserialization_errors :=
                revert_to_default_on_deserialization_errors }, mWritten)
  else if !loaded then
    (NewResult.ok
      { name := name, format := fmt, resource := none,
        default := if revertible then some default else none,
        revert_to_default_on_deserialization_errors :=
          revert_to_default_on_deserialization_errors }, m)
  else
    match Storage.read L fmt m with
    | Except.ok resource =>
      (NewResult.ok
        { name := name, format := fmt, resource := some resource,
          default := if revertible then some default else none,
          revert_to_default_on_deserialization_errors :=
            revert_to_default_on_deserialization_errors }, m)
    | Except.error error =>
      if error.is_serde && revert_to_default_on_deserialization_errors then
        let result : Persistent R :=
          { name := name, format := fmt, resource := none,
            default := if revertible then some default else none,
            revert_to_default_on_deserialization_errors :=
              revert_to_default_on_deserialization_errors }
        match Persistent.revert_to_default L result m with
        | (OpStatus.ok, reverted, mNew) =>
          match Persistent.revert_to_default_in_memory L reverted with
          | (OpStatus.ok, materialized) => (NewResult.ok materialized, mNew)
          | (OpStatus.err _, _) => (NewResult.err error, mNew)
          | (OpStatus.panicked msg, _) => (NewResult.panicked msg, mNew)
        | (OpStatus.err _, _, mNew) => (NewResult.err error, mNew)
        | (OpStatus.panicked msg, _, mNew) => (NewResult.panicked msg, mNew)
      else
        (NewResult.err error, m)

/-- The builder of `src/builder.rs` (`PersistentBuilder<R>`); the path field
keeps only whether it was set (its value merely locates the medium, which is
threaded explicitly). -/
structure PersistentBuilder (R : Type) where
  name : Option String
  format : Option StorageFormat
  path : Option String
  loaded : Bool
  default : Option R
  revertible : Bool
  revert_to_default_on_deserialization_errors : Bool
deriving DecidableEq, Repr

/-- `Persistent::builder` (src/persistent.rs lines 25-35). -/
def Persistent.mkBuilder (R : Type) : PersistentBuilder R :=
  { name := none, format := none, path := none, loaded := true,
    default := none, revertible := false,
    revert_to_default_on_deserialization_errors := false }

/-- `PersistentBuilder::build` (src/builder.rs lines 84-140): panic when
`name`, `format`, `path` or `default` is unset, then hand over to
`Persistent::new`. -/
def PersistentBuilder.build {R : Type} (L : SerdeLibs R) (b : PersistentBuilder R)
    (m : Medium) : NewResult R × Medium :=
  match b.name with
  | none => (NewResult.panicked "persistent resource name is not set", m)
  | some name =>
    match b.format with
    | none => (NewResult.panicked "persistent resource format is not set", m)
    | some fmt =>
      match b.path with
      | none => (NewResult.panicked "persistent resource path is not set", m)
      | some _ =>
        match b.default with
        | none => (NewResult.panicked "persistent resource default is not set", m)
        | some default =>
          Persistent.new L name fmt b.loaded default b.revertible
            b.revert_to_default_on_deserialization_errors m

/-! Helper lemmas about error classification and failure-preservation, shared
by the claim theorems below. -/

theorem serErr_is_serde (fmt : StorageFormat) (e : Nat) :
    (StorageFormat.serErr fmt e).is_serde = true := by
  cases fmt <;> rfl

theorem deErr_is_serde (fmt : StorageFormat) (e : Nat) :
    (StorageFormat.deErr fmt e).is_serde = true := by
  cases fmt <;> rfl

theorem serialize_error_is_serde {R : Type} (L : SerdeLibs R) (fmt : StorageFormat)
    (r : R) (e : PersistenceError)
    (h : StorageFormat.serialize L fmt r = Except.error e) : e.is_serde = true := by
  unfold StorageFormat.serialize at h
  cases hs : L.ser fmt r with
  | ok bytes => rw [hs] at h; exact absurd h (by simp)
  | error e0 =>
    rw [hs] at h
    have : StorageFormat.serErr fmt e0 = e := by injection h
    rw [← this]
    exact serErr_is_serde fmt e0

theorem deserialize_error_is_serde {R : Type} (L : SerdeLibs R) (fmt : StorageFormat)
    (bytes : List Nat) (e : PersistenceError)
    (h : StorageFormat.deserialize L fmt bytes = Except.error e) : e.is_serde = true := by
  unfold StorageFormat.deserialize at h
  split at h
  · split at h
    · exact absurd h (by simp)
    · injection h with h2
      rw [← h2]; rfl
  · split at h
    · injection h with h2
      rw [← h2]; rfl
    · split at h
      · exact absurd h (by simp)
      · injection h with h2
        rw [← h2]
        exact deErr_is_serde fmt _

theorem revert_in_memory_err_preserves {R : Type} (L : SerdeLibs R) (p : Persistent R)
    (e : PersistenceError) (pNew : Persistent R)
    (h : Persistent.revert_to_default_in_memory L p = (OpStatus.err e, pNew)) :
    pNew = p := by
  unfold Persistent.revert_to_default_in_memory at h
  split at h
  · exact absurd h (by simp)
  · split at h
    · simp only [Prod.mk.injEq] at h
      exact h.2.symm
    · split at h
      · simp only [Prod.mk.injEq] at h
        exact h.2.symm
      · exact absurd h (by simp)

theorem revert_err_preserves {R : Type} (L : SerdeLibs R) (p : Persistent R)
    (m : Medium) (e : PersistenceError) (pNew : Persistent R) (mNew : Medium)
    (h : Persistent.revert_to_default L p m = (OpStatus.err e, pNew, mNew)) :
    pNew = p := by
  unfold Persistent.revert_to_default at h
  split at h
  · exact absurd h (by simp)
  · split at h
    · simp only [Prod.mk.injEq] at h
      exact h.2.1.symm
    · split at h
      · split at h
        rename_i status pMid hMid
        simp only [Prod.mk.injEq] at h
        rcases h with ⟨h1, h2, h3⟩
        rw [h1] at hMid
        rw [← h2]
        exact revert_in_memory_err_preserves L p e pMid hMid
      · exact absurd h (by simp)

/-! Concrete instances used by the witnesses: payloads are `Nat`s. `natLib`
round-trips every value through every format; `fragileLib` encodes every value
but can only decode the encoding of `0`, so reconstructing any other value
fails. -/

def natLib : SerdeLibs Nat :=
  { ser := fun _ n => Except.ok [n],
    de := fun _ bytes =>
      match bytes with
      | [n] => Except.ok n
      | _ => Except.error 7 }

def fragileLib : SerdeLibs Nat :=
  { ser := fun _ n => Except.ok [n],
    de := fun _ bytes =>
      match bytes with
      | [0] => Except.ok 0
      | _ => Except.error 7 }

/-- A medium holding bytes that no `natLib` format decodes, with no faults. -/
def corruptMedium : Medium :=
  { contents := some [1, 2], initErr := none, readErr := none, writeErr := none }

/-- A loaded, non-revertible persistent value used by witnesses. -/
def plainLoaded : Persistent Nat :=
  { name := "res", format := StorageFormat.Json, resource := some 3,
    default := none, revert_to_default_on_deserialization_errors := false }

/-- C4: whenever `reload` fails — a read or decode error with no successful
revert — the returned error is surfaced and the in-memory value (indeed the
whole `Persistent` record) is exactly what it was before the call; the
resource is replaced only on the success paths. -/
theorem C4_reload_failure_preserves_current {R : Type} (L : SerdeLibs R)
    (p pNew : Persistent R) (m mNew : Medium) (e : PersistenceError)
    (h : Persistent.reload L p m = (OpStatus.err e, pNew, mNew)) :
    pNew = p := by
  unfold Persistent.reload at h
  split at h
  · exact absurd h (by simp)
  · split at h
    · split at h
      · split at h
        · exact absurd h (by simp)
        · rename_i pMid mMid hRev
          simp only [Prod.mk.injEq] at h
          rcases h with ⟨_, h2, _⟩
          rw [← h2]
          exact revert_err_preserves L p m _ pMid mMid hRev
        · exact absurd h (by simp)
      · simp only [Prod.mk.injEq] at h
        exact h.2.1.symm
    · simp only [Prod.mk.injEq] at h
      exact h.2.1.symm

/-- Witness for C4: reloading from corrupt bytes with the revert policy off
fails with the decode error and leaves the value untouched. -/
theorem C4_witness :
    Persistent.reload natLib plainLoaded corruptMedium =
      (OpStatus.err (PersistenceError.JsonDeserialization 7), plainLoaded, corruptMedium) ∧
    plainLoaded = plainLoaded := by
  refine ⟨by decide, ?_⟩
  exact C4_reload_failure_preserves_current natLib plainLoaded plainLoaded
    corruptMedium corruptMedium (PersistenceError.JsonDeserialization 7) (by decide)

/-- An occupied medium whose read fails with I/O error 5. -/
def ioReadMedium : Medium :=
  { contents := some [0], initErr := none, readErr := some 5, writeErr := none }

/-- An unoccupied medium whose directory creation fails with I/O error 9. -/
def brokenInitMedium : Medium :=
  { contents := none, initErr := some 9, readErr := none, writeErr := none }

/-- C3: an I/O (non-serde) storage error is propagated verbatim by both
construction and reload and never triggers a revert — the medium and the
in-memory value are untouched — whatever the revert policy; likewise an I/O
failure initializing an unoccupied location aborts construction verbatim. -/
theorem C3_io_error_propagated_verbatim {R : Type} (L : SerdeLibs R)
    (name : String) (fmt : StorageFormat) (default : R) (revertible flag : Bool)
    (p : Persistent R) (m mu : Medium) (io iou : Nat)
    (hcfg : flag = true → revertible = true)
    (hocc : Storage.occupied m = true) (hread : m.readErr = some io)
    (huocc : Storage.occupied mu = false) (hinit : mu.initErr = some iou) :
    Persistent.new L name fmt true default revertible flag m =
      (NewResult.err (PersistenceError.Filesystem io), m) ∧
    Persistent.reload L p m =
      (OpStatus.err (PersistenceError.Filesystem io), p, m) ∧
    Persistent.new L name fmt true default revertible flag mu =
      (NewResult.err (PersistenceError.Filesystem iou), mu) := by
  have hnp : (flag && !revertible) = false := by
    cases flag <;> cases revertible <;> simp_all
  refine ⟨?_, ?_, ?_⟩
  · unfold Persistent.new
    simp [hnp, hocc, Storage.read, Storage.rawRead, hread, PersistenceError.is_serde]
  · unfold Persistent.reload
    simp [Storage.read, Storage.rawRead, hread, PersistenceError.is_serde]
  · unfold Persistent.new
    simp [hnp, huocc, Storage.initStorage, hinit]

/-- Witness for C3 at `natLib`, a failing read and a failing directory
creation, with the revert policy fully enabled. -/
theorem C3_witness :
    Storage.occupied ioReadMedium = true ∧
    Persistent.new natLib "res" StorageFormat.Json true 0 true true ioReadMedium =
      (NewResult.err (PersistenceError.Filesystem 5), ioReadMedium) ∧
    Persistent.reload natLib plainLoaded ioReadMedium =
      (OpStatus.err (PersistenceError.Filesystem 5), plainLoaded, ioReadMedium) ∧
    Persistent.new natLib "res" StorageFormat.Json true 0 true true brokenInitMedium =
      (NewResult.err (PersistenceError.Filesystem 9), brokenInitMedium) := by
  have h := C3_io_error_propagated_verbatim natLib "res" StorageFormat.Json 0 true true
    plainLoaded ioReadMedium brokenInitMedium 5 9 (fun _ => rfl)
    (by decide) (by decide) (by decide) (by decide)
  exact ⟨by decide, h.1, h.2.1, h.2.2⟩

/-- C1: constructing in loaded mode over storage whose bytes fail to decode.
With revertibility and the revert policy both enabled and the revert
succeeding, construction succeeds with the current value equal to the default
and storage holding the encoded default; with the policy disabled,
construction fails with the decode error and storage keeps the original
corrupt bytes. -/
theorem C1_corrupt_storage_loaded_construction {R : Type} (L : SerdeLibs R)
    (name : String) (fmt : StorageFormat) (default : R) (revertible : Bool)
    (bs dbytes : List Nat) (e : PersistenceError) (m : Medium)
    (hbs : m.contents = some bs) (hread : m.readErr = none) (hwrite : m.writeErr = none)
    (hde : StorageFormat.deserialize L fmt bs = Except.error e)
    (hser : StorageFormat.serialize L fmt default = Except.ok dbytes)
    (hrt : StorageFormat.deserialize L fmt dbytes = Except.ok default) :
    Persistent.new L name fmt true default true true m =
      (NewResult.ok
        { name := name, format := fmt, resource := some default,
          default := some default,
          revert_to_default_on_deserialization_errors := true },
        { m with contents := some dbytes }) ∧
    Persistent.new L name fmt true default revertible false m =
      (NewResult.err e, m) := by
  have hocc : Storage.occupied m = true := by
    simp [Storage.occupied, hbs]
  have hserde : e.is_serde = true := deserialize_error_is_serde L fmt bs e hde
  constructor
  · unfold Persistent.new
    simp only [hocc, Bool.not_true, Bool.and_self, Bool.not_false, if_false, if_true,
      Bool.false_eq_true, reduceIte]
    rw [show Storage.read L fmt m = Except.error e by
      simp [Storage.read, Storage.rawRead, hread, hbs, hde]]
    simp only [hserde, Bool.and_self, if_true]
    unfold Persistent.revert_to_default
    simp only [reduceIte]
    rw [show Storage.write L fmt default m = Except.ok { m with contents := some dbytes } by
      simp [Storage.write, Storage.rawWrite, hser, hwrite]]
    unfold Persistent.revert_to_default_in_memory
    simp [hser, hrt]
  · unfold Persistent.new
    simp only [Bool.and_false, Bool.false_and, Bool.not_true, if_false, Bool.false_eq_true,
      reduceIte, hocc]
    rw [show Storage.read L fmt m = Except.error e by
      simp [Storage.read, Storage.rawRead, hread, hbs, hde]]

/-- Witness for C1: corrupt bytes `[1, 2]`, default `5` encoding to `[5]`. -/
theorem C1_witness :
    StorageFormat.deserialize natLib StorageFormat.Json [1, 2] =
      (Except.error (PersistenceError.JsonDeserialization 7) : Except PersistenceError Nat) ∧
    Persistent.new natLib "res" StorageFormat.Json true 5 true true corruptMedium =
      (NewResult.ok
        { name := "res", format := StorageFormat.Json, resource := some 5,
          default := some 5,
          revert_to_default_on_deserialization_errors := true },
        { corruptMedium with contents := some [5] }) ∧
    Persistent.new natLib "res" StorageFormat.Json true 5 false false corruptMedium =
      (NewResult.err (PersistenceError.JsonDeserialization 7), corruptMedium) := by
  have h := C1_corrupt_storage_loaded_construction natLib "res" StorageFormat.Json 5 false
    [1, 2] [5] (PersistenceError.JsonDeserialization 7) corruptMedium
    (by decide) (by decide) (by decide) (by rfl) (by rfl) (by rfl)
  exact ⟨by rfl, h.1, h.2⟩

/-- C2: when a decode failure triggers an automatic revert and the revert
itself fails — the write of the default (medium `mw`, failing writes) or the
in-memory reconstruction (medium `mm`, working writes but a default whose
round trip fails) — both construction and reload return the original decode
error `e`, not the revert's own error. -/
theorem C2_failed_revert_returns_original_error {R : Type} (L : SerdeLibs R)
    (name : String) (fmt : StorageFormat) (default r0 : R)
    (bs dbytes : List Nat) (e e2 : PersistenceError) (w : Nat) (mw mm : Medium)
    (hwbs : mw.contents = some bs) (hwread : mw.readErr = none)
    (hwwrite : mw.writeErr = some w)
    (hmbs : mm.contents = some bs) (hmread : mm.readErr = none)
    (hmwrite : mm.writeErr = none)
    (hde : StorageFormat.deserialize L fmt bs = Except.error e)
    (hser : StorageFormat.serialize L fmt default = Except.ok dbytes)
    (hde2 : StorageFormat.deserialize L fmt dbytes = Except.error e2) :
    Persistent.new L name fmt true default true true mw = (NewResult.err e, mw) ∧
    Persistent.new L name fmt true default true true mm =
      (NewResult.err e, { mm with contents := some dbytes }) ∧
    Persistent.reload L
        { name := name, format := fmt, resource := some r0, default := some default,
          revert_to_default_on_deserialization_errors := true } mw =
      (OpStatus.err e,
        { name := name, format := fmt, resource := some r0, default := some default,
          revert_to_default_on_deserialization_errors := true }, mw) ∧
    Persistent.reload L
        { name := name, format := fmt, resource := some r0, default := some default,
          revert_to_default_on_deserialization_errors := true } mm =
      (OpStatus.err e,
        { name := name, format := fmt, resource := some r0, default := some default,
          revert_to_default_on_deserialization_errors := true },
        { mm with contents := some dbytes }) := by
  have hwocc : Storage.occupied mw = true := by simp [Storage.occupied, hwbs]
  have hmocc : Storage.occupied mm = true := by simp [Storage.occupied, hmbs]
  have hserde : e.is_serde = true := deserialize_error_is_serde L fmt bs e hde
  have hreadw : Storage.read L fmt mw = (Except.error e : Except PersistenceError R) := by
    simp [Storage.read, Storage.rawRead, hwread, hwbs, hde]
  have hreadm : Storage.read L fmt mm = (Except.error e : Except PersistenceError R) := by
    simp [Storage.read, Storage.rawRead, hmread, hmbs, hde]
  have hwrw : Storage.write L fmt default mw =
      (Except.error (PersistenceError.Filesystem w) : Except PersistenceError Medium) := by
    simp [Storage.write, Storage.rawWrite, hser, hwwrite]
  have hwrm : Storage.write L fmt default mm =
      Except.ok { mm with contents := some dbytes } := by
    simp [Storage.write, Storage.rawWrite, hser, hmwrite]
  refine ⟨?_, ?_, ?_, ?_⟩
  · unfold Persistent.new
    simp only [hwocc, Bool.not_true, Bool.and_self, Bool.false_eq_true, reduceIte]
    rw [hreadw]
    simp only [hserde, Bool.and_self, reduceIte]
    unfold Persistent.revert_to_default
    simp only [reduceIte]
    rw [hwrw]
    simp
  · unfold Persistent.new
    simp only [hmocc, Bool.not_true, Bool.and_self, Bool.false_eq_true, reduceIte]
    rw [hreadm]
    simp only [hserde, Bool.and_self, reduceIte]
    unfold Persistent.revert_to_default
    simp only [reduceIte]
    rw [hwrm]
    unfold Persistent.revert_to_default_in_memory
    simp [hser, hde2]
  · unfold Persistent.reload
    rw [hreadw]
    simp only [hserde, reduceIte]
    unfold Persistent.revert_to_default
    simp only [reduceIte]
    rw [hwrw]
  · unfold Persistent.reload
    rw [hreadm]
    simp only [hserde, reduceIte]
    unfold Persistent.revert_to_default
    simp only [reduceIte]
    rw [hwrm]
    unfold Persistent.revert_to_default_in_memory
    simp [hser, hde2]

/-- A corrupt occupied medium whose writes fail with I/O error 3. -/
def corruptWriteFailMedium : Medium :=
  { contents := some [1, 2], initErr := none, readErr := none, writeErr := some 3 }

/-- Witness for C2 at `fragileLib`: the default `5` encodes to `[5]` but
`[5]` no longer decodes, so the in-memory revert fails; on the other medium
the revert's write fails. All four ways return the decode error of `[1, 2]`. -/
theorem C2_witness :
    StorageFormat.deserialize fragileLib StorageFormat.Json [1, 2] =
      (Except.error (PersistenceError.JsonDeserialization 7) : Except PersistenceError Nat) ∧
    Persistent.new fragileLib "res" StorageFormat.Json true 5 true true corruptWriteFailMedium =
      (NewResult.err (PersistenceError.JsonDeserialization 7), corruptWriteFailMedium) ∧
    Persistent.new fragileLib "res" StorageFormat.Json true 5 true true corruptMedium =
      (NewResult.err (PersistenceError.JsonDeserialization 7),
        { corruptMedium with contents := some [5] }) ∧
    Persistent.reload fragileLib
        { name := "res", format := StorageFormat.Json, resource := some 3, default := some 5,
          revert_to_default_on_deserialization_errors := true } corruptWriteFailMedium =
      (OpStatus.err (PersistenceError.JsonDeserialization 7),
        { name := "res", format := StorageFormat.Json, resource := some 3, default := some 5,
          revert_to_default_on_deserialization_errors := true }, corruptWriteFailMedium) := by
  have h := C2_failed_revert_returns_original_error fragileLib "res" StorageFormat.Json 5 3
    [1, 2] [5] (PersistenceError.JsonDeserialization 7) (PersistenceError.JsonDeserialization 7)
    3 corruptWriteFailMedium corruptMedium
    (by decide) (by decide) (by decide) (by decide) (by decide) (by decide)
    (by rfl) (by rfl) (by rfl)
  exact ⟨by rfl, h.1, h.2.1, h.2.2.1⟩

/-- A loaded, revertible persistent value (default `5`) with the revert
policy enabled, used by witnesses. -/
def revLoaded : Persistent Nat :=
  { name := "res", format := StorageFormat.Json, resource := some 3, default := some 5,
    revert_to_default_on_deserialization_errors := true }

/-- C5: `revert_to_default` panics on a non-revertible value; when it fails,
the value (hence the current resource) is left at its pre-call state; and on
success with a loaded value it writes the encoded default to storage and
materializes into the resource the independent copy obtained by the
serialize-then-deserialize round trip of the default. -/
theorem C5_revert_to_default_contract {R : Type} (L : SerdeLibs R)
    (p : Persistent R) (m : Medium) (d r0 rd : R) (bs : List Nat) :
    (p.default = none →
      Persistent.revert_to_default L p m =
        (OpStatus.panicked ("tried to revert non-revertible " ++ p.name), p, m)) ∧
    (∀ e pNew mNew,
      Persistent.revert_to_default L p m = (OpStatus.err e, pNew, mNew) → pNew = p) ∧
    (p.default = some d → p.resource = some r0 →
      StorageFormat.serialize L p.format d = Except.ok bs →
      StorageFormat.deserialize L p.format bs = Except.ok rd →
      m.writeErr = none →
      Persistent.revert_to_default L p m =
        (OpStatus.ok, { p with resource := some rd }, { m with contents := some bs })) := by
  refine ⟨?_, ?_, ?_⟩
  · intro hd
    unfold Persistent.revert_to_default
    rw [hd]
  · intro e pNew mNew h
    exact revert_err_preserves L p m e pNew mNew h
  · intro hd hr hser hrd hw
    unfold Persistent.revert_to_default
    rw [hd]
    dsimp only
    rw [show Storage.write L p.format d m = Except.ok { m with contents := some bs } by
      simp [Storage.write, Storage.rawWrite, hser, hw]]
    simp only [hr, Option.isSome_some, reduceIte]
    unfold Persistent.revert_to_default_in_memory
    simp only [hd, hser, hrd]

/-- Witness for C5: a non-revertible value panics; the revertible loaded
value `revLoaded` reverts, its resource becoming the round-trip copy of the
default and storage the encoded default. -/
theorem C5_witness :
    Persistent.revert_to_default natLib plainLoaded corruptMedium =
      (OpStatus.panicked "tried to revert non-revertible res", plainLoaded, corruptMedium) ∧
    Persistent.revert_to_default natLib revLoaded corruptMedium =
      (OpStatus.ok, { revLoaded with resource := some 5 },
        { corruptMedium with contents := some [5] }) := by
  constructor
  · exact (C5_revert_to_default_contract natLib plainLoaded corruptMedium 0 0 0 []).1 rfl
  · exact (C5_revert_to_default_contract natLib revLoaded corruptMedium 5 3 5 [5]).2.2
      rfl rfl (by rfl) (by rfl) rfl

theorem persist_err_preserves_medium {R : Type} (L : SerdeLibs R) (p : Persistent R)
    (m : Medium) (e : PersistenceError) (mNew : Medium)
    (h : Persistent.persist L p m = (OpStatus.err e, mNew)) : mNew = m := by
  unfold Persistent.persist at h
  split at h
  · exact absurd h (by simp)
  · split at h
    · simp only [Prod.mk.injEq] at h
      exact h.2.symm
    · exact absurd h (by simp)

/-- C6: `unload` on a loaded value persists the current value first — on
success storage holds its encoding and only then is the resource dropped to
`none` — and when the persist step fails the error is returned with the value
still loaded, its current resource and the medium unchanged. -/
theorem C6_unload_persists_before_dropping {R : Type} (L : SerdeLibs R)
    (p : Persistent R) (m : Medium) (r : R) (bs : List Nat)
    (hload : p.resource = some r) :
    (StorageFormat.serialize L p.format r = Except.ok bs → m.writeErr = none →
      Persistent.unload L p m =
        (OpStatus.ok, { p with resource := none }, { m with contents := some bs })) ∧
    (∀ e pNew mNew, Persistent.unload L p m = (OpStatus.err e, pNew, mNew) →
      pNew = p ∧ mNew = m) := by
  constructor
  · intro hser hw
    unfold Persistent.unload Persistent.persist
    simp only [hload, Option.isSome_some, reduceIte]
    rw [show Storage.write L p.format r m = Except.ok { m with contents := some bs } by
      simp [Storage.write, Storage.rawWrite, hser, hw]]
  · intro e pNew mNew h
    unfold Persistent.unload at h
    split at h
    · split at h
      · exact absurd h (by simp)
      · rename_i mMid hPersist
        simp only [Prod.mk.injEq] at h
        rcases h with ⟨h1, h2, h3⟩
        refine ⟨h2.symm, ?_⟩
        rw [← h3]
        exact persist_err_preserves_medium L p m _ mMid (h1 ▸ hPersist)
      · exact absurd h (by simp)
    · exact absurd h (by simp)

/-- Witness for C6: unloading `revLoaded` persists `[3]` then drops the
resource; with failing writes it errs and stays loaded and unchanged. -/
theorem C6_witness :
    Persistent.unload natLib revLoaded corruptMedium =
      (OpStatus.ok, { revLoaded with resource := none },
        { corruptMedium with contents := some [3] }) ∧
    revLoaded = revLoaded ∧ corruptWriteFailMedium = corruptWriteFailMedium := by
  have h := C6_unload_persists_before_dropping natLib revLoaded corruptMedium 3 [3] rfl
  have hErr := (C6_unload_persists_before_dropping natLib revLoaded
    corruptWriteFailMedium 3 [3] rfl).2 (PersistenceError.Filesystem 3)
    revLoaded corruptWriteFailMedium (by rfl)
  exact ⟨h.1 (by rfl) rfl, hErr.1.symm ▸ rfl, hErr.2.symm ▸ rfl⟩

/-- C7: building with any required field (name, format, path, default) unset,
or with the revert policy requested on a non-revertible resource, panics at
build time — the result is a panic, never a constructed value, and the medium
is untouched. -/
theorem C7_build_rejects_invalid_configuration {R : Type} (L : SerdeLibs R)
    (b : PersistentBuilder R) (m : Medium)
    (h : b.name = none ∨ b.format = none ∨ b.path = none ∨ b.default = none ∨
      (b.revert_to_default_on_deserialization_errors = true ∧ b.revertible = false)) :
    (PersistentBuilder.build L b m).1.isPanicked = true ∧
    (PersistentBuilder.build L b m).2 = m := by
  unfold PersistentBuilder.build
  cases hn : b.name with
  | none => simp [NewResult.isPanicked]
  | some name =>
    cases hf : b.format with
    | none => simp [NewResult.isPanicked]
    | some fmt =>
      cases hp : b.path with
      | none => simp [NewResult.isPanicked]
      | some path =>
        cases hd : b.default with
        | none => simp [NewResult.isPanicked]
        | some d =>
          rcases h with h | h | h | h | ⟨hflag, hrev⟩
          · exact absurd h (by simp [hn])
          · exact absurd h (by simp [hf])
          · exact absurd h (by simp [hp])
          · exact absurd h (by simp [hd])
          · unfold Persistent.new
            simp [hflag, hrev, NewResult.isPanicked]

/-- A fully populated builder that asks for revert-on-decode-errors without
revertibility. -/
def badFlagBuilder : PersistentBuilder Nat :=
  { name := some "res", format := some StorageFormat.Json, path := some "prefs.json",
    loaded := true, default := some 0, revertible := false,
    revert_to_default_on_deserialization_errors := true }

/-- A builder missing its default value. -/
def noDefaultBuilder : PersistentBuilder Nat :=
  { name := some "res", format := some StorageFormat.Json, path := some "prefs.json",
    loaded := true, default := none, revertible := false,
    revert_to_default_on_deserialization_errors := false }

/-- Witness for C7: the invalid-flag builder and the missing-default builder
both panic instead of constructing. -/
theorem C7_witness :
    (PersistentBuilder.build natLib badFlagBuilder corruptMedium).1.isPanicked = true ∧
    (PersistentBuilder.build natLib noDefaultBuilder corruptMedium).1.isPanicked = true := by
  constructor
  · exact (C7_build_rejects_invalid_configuration natLib badFlagBuilder corruptMedium
      (Or.inr (Or.inr (Or.inr (Or.inr ⟨rfl, rfl⟩))))).1
  · exact (C7_build_rejects_invalid_configuration natLib noDefaultBuilder corruptMedium
      (Or.inr (Or.inr (Or.inr (Or.inl rfl))))).1

/-- C8: for every storage format and every payload value, when the format's
library codec round-trips the value (its contract in the spec, held by the
external serde crates), the crate's `StorageFormat::serialize` /
`StorageFormat::deserialize` wrappers — which add error wrapping and, for the
text formats, UTF-8 encoding and validation — round-trip it too:
deserializing the bytes produced by serializing `v` yields `v`. -/
theorem C8_format_round_trip {R : Type} (L : SerdeLibs R) (fmt : StorageFormat)
    (v : R) (s : List Nat)
    (hser : L.ser fmt v = Except.ok s)
    (hde : L.de fmt s = Except.ok v)
    (hvalid : fmt ≠ StorageFormat.Bincode → s.all validScalar = true) :
    StorageFormat.serialize L fmt v = Except.ok s ∧
    StorageFormat.deserialize L fmt s = Except.ok v := by
  constructor
  · simp [StorageFormat.serialize, hser]
  · unfold StorageFormat.deserialize
    by_cases hb : fmt = StorageFormat.Bincode
    · subst hb
      simp [hde]
    · simp [hb, utf8Decode, hvalid hb, hde]

/-- Witness for C8: `natLib` on TOML with value 5 encoding to `[5]`. -/
theorem C8_witness :
    natLib.ser StorageFormat.Toml 5 = Except.ok [5] ∧
    natLib.de StorageFormat.Toml [5] = Except.ok 5 ∧
    StorageFormat.serialize natLib StorageFormat.Toml 5 = Except.ok [5] ∧
    StorageFormat.deserialize natLib StorageFormat.Toml [5] = Except.ok 5 := by
  have h := C8_format_round_trip natLib StorageFormat.Toml 5 [5] (by rfl) (by rfl)
    (fun _ => by decide)
  exact ⟨by rfl, by rfl, h.1, h.2⟩

/-- C9: on an unloaded value, `set` never panics — it replaces the resource
(the value becomes loaded) and then persists it, on success writing the
encoding to storage — while `update`, `get` and `get_mut` all fail fast with
their unloaded-value panics. -/
theorem C9_set_works_on_unloaded {R : Type} (L : SerdeLibs R) (p : Persistent R)
    (r : R) (f : R → R) (m : Medium) (bs : List Nat)
    (hunl : p.resource = none) :
    (Persistent.set L p r m).1.isPanicked = false ∧
    (Persistent.set L p r m).2.1.resource = some r ∧
    (StorageFormat.serialize L p.format r = Except.ok bs → m.writeErr = none →
      Persistent.set L p r m =
        (OpStatus.ok, { p with resource := some r }, { m with contents := some bs })) ∧
    Persistent.update L p f m =
      (OpStatus.panicked ("tried to update unloaded " ++ p.name), p, m) ∧
    Persistent.get p = GetResult.panicked ("tried to get unloaded " ++ p.name) ∧
    Persistent.get_mut p =
      GetResult.panicked ("tried to get unloaded " ++ p.name ++ " mutably") := by
  refine ⟨?_, ?_, ?_, ?_, ?_, ?_⟩
  · unfold Persistent.set Persistent.persist
    dsimp only
    cases hw : Storage.write L p.format r m <;> simp [OpStatus.isPanicked]
  · unfold Persistent.set Persistent.persist
    dsimp only
  · intro hser hw
    unfold Persistent.set Persistent.persist
    dsimp only
    rw [show Storage.write L p.format r m = Except.ok { m with contents := some bs } by
      simp [Storage.write, Storage.rawWrite, hser, hw]]
  · simp [Persistent.update, hunl]
  · simp [Persistent.get, hunl]
  · simp [Persistent.get_mut, hunl]

/-- An unloaded, non-revertible persistent value used by witnesses. -/
def plainUnloaded : Persistent Nat :=
  { name := "res", format := StorageFormat.Json, resource := none,
    default := none, revert_to_default_on_deserialization_errors := false }

/-- Witness for C9: setting 4 on the unloaded value succeeds and persists
`[4]`; updating and getting panic. -/
theorem C9_witness :
    Persistent.set natLib plainUnloaded 4 corruptMedium =
      (OpStatus.ok, { plainUnloaded with resource := some 4 },
        { corruptMedium with contents := some [4] }) ∧
    Persistent.update natLib plainUnloaded (fun n => n + 1) corruptMedium =
      (OpStatus.panicked "tried to update unloaded res", plainUnloaded, corruptMedium) ∧
    Persistent.get plainUnloaded = GetResult.panicked "tried to get unloaded res" := by
  have h := C9_set_works_on_unloaded natLib plainUnloaded 4 (fun n => n + 1)
    corruptMedium [4] rfl
  exact ⟨h.2.2.1 (by rfl) rfl, h.2.2.2.1, h.2.2.2.2.1⟩

/-- C10: `revert_to_default` is not atomic across storage and memory: on a
loaded revertible value, when the write of the default succeeds but the
in-memory serialize-then-deserialize reconstruction fails, the call errs with
the resource still at its pre-call value while storage already holds the
encoded default. -/
theorem C10_revert_not_atomic {R : Type} (L : SerdeLibs R) (p : Persistent R)
    (m : Medium) (d r0 : R) (bs : List Nat) (e2 : PersistenceError)
    (hd : p.default = some d) (hr : p.resource = some r0)
    (hser : StorageFormat.serialize L p.format d = Except.ok bs)
    (hde2 : StorageFormat.deserialize L p.format bs = Except.error e2)
    (hw : m.writeErr = none) :
    Persistent.revert_to_default L p m =
      (OpStatus.err e2, p, { m with contents := some bs }) := by
  unfold Persistent.revert_to_default
  rw [hd]
  dsimp only
  rw [show Storage.write L p.format d m = Except.ok { m with contents := some bs } by
    simp [Storage.write, Storage.rawWrite, hser, hw]]
  simp only [hr, Option.isSome_some, reduceIte]
  unfold Persistent.revert_to_default_in_memory
  simp only [hd, hser, hde2]

/-- Witness for C10: `fragileLib` writes the default `5` as `[5]` but cannot
decode it back, so the revert errs with storage updated and memory not. -/
theorem C10_witness :
    StorageFormat.deserialize fragileLib StorageFormat.Json [5] =
      (Except.error (PersistenceError.JsonDeserialization 7) : Except PersistenceError Nat) ∧
    Persistent.revert_to_default fragileLib revLoaded corruptMedium =
      (OpStatus.err (PersistenceError.JsonDeserialization 7), revLoaded,
        { corruptMedium with contents := some [5] }) := by
  refine ⟨by rfl, ?_⟩
  exact C10_revert_not_atomic fragileLib revLoaded corruptMedium 5 3 [5]
    (PersistenceError.JsonDeserialization 7) rfl rfl (by rfl) (by rfl) rfl
